import Mathlib

/-!
Shallow embedding of the token-lifecycle / retry / rate-limit core of the
`magento_ua` client library, together with theorems settling the claims
about it.  Every definition mirrors a function of the Python source
(`src/magento_ua/network/retry.py`, `src/magento_ua/network/rate_limiter.py`,
`src/magento_ua/auth/token_provider.py`,
`src/magento_ua/exceptions/{base,api,network}.py`); machine floats are
modelled as exact rationals, Python `None`-able fields as `Option`, and
raised exceptions as `Except` results.
-/

namespace MagentoUA

/-! ## Exceptions (exceptions/base.py, exceptions/api.py, exceptions/network.py)

Python exceptions are modelled as an inductive of the kinds the core can
raise; the class hierarchy relevant to `isinstance` checks is modelled by
`ExcClass` and `isinstanceOf`.  `RetryExhaustedError(message, max_retries,
last_error)` is the class of exceptions/network.py lines 56-68; its
`last_error` is kept as the rendered message string. -/

inductive Exc where
  | authenticationError (msg : String)
  | networkError (msg : String)
  | timeoutError (msg : String)
  | validationError (msg : String)
  | retryExhaustedError (msg : String) (maxRetries : Nat) (lastErrorMsg : String)
  | genericException (msg : String)
deriving DecidableEq

/-- Render an exception as `str(e)` does at the level of detail the core
needs: the stored message (`MagentoError.__str__` returns `self.message`
when no `original_error` is attached, which is how the core constructs
them). -/
def Exc.msgStr : Exc → String
  | .authenticationError m => m
  | .networkError m => m
  | .timeoutError m => m
  | .validationError m => m
  | .retryExhaustedError m _ _ => m
  | .genericException m => m

/-- Whether an exception is a `RetryExhaustedError`. -/
def Exc.isRetryExhausted : Exc → Bool
  | .retryExhaustedError _ _ _ => true
  | _ => false

/-- The exception classes the core tests with `isinstance`.  `exceptionBase`
is builtin `Exception`, the root of the hierarchy. -/
inductive ExcClass where
  | exceptionBase
  | networkErrorClass
  | authenticationErrorClass
deriving DecidableEq

/-- Python `isinstance(e, c)` for the modelled hierarchy: every exception is
an instance of `Exception`; `NetworkError`, `TimeoutError` and
`RetryExhaustedError` are instances of `NetworkError` (exceptions/network.py);
`AuthenticationError` is an instance of `AuthenticationError`
(exceptions/api.py). -/
def isinstanceOf : Exc → ExcClass → Bool
  | _, .exceptionBase => true
  | .networkError _, .networkErrorClass => true
  | .timeoutError _, .networkErrorClass => true
  | .retryExhaustedError _ _ _, .networkErrorClass => true
  | .authenticationError _, .authenticationErrorClass => true
  | _, _ => false

/-! ## Retry strategies (network/retry.py) -/

/-- `RetryStrategy` dataclass fields after `__post_init__` has run
(retry.py lines 11-21). -/
structure RetryStrategy where
  max_attempts : Nat
  retryable_exceptions : List ExcClass
deriving DecidableEq

/-- `__post_init__` (retry.py lines 18-21): a `None` retryable-exception
list becomes `[Exception]`. -/
def postInitRetryable (l : Option (List ExcClass)) : List ExcClass :=
  match l with
  | none => [ExcClass.exceptionBase]
  | some l => l

/-- Construct a `RetryStrategy` the way the dataclass constructor followed
by `__post_init__` does. -/
def RetryStrategy.make (max_attempts : Nat) (retryable : Option (List ExcClass)) :
    RetryStrategy :=
  ⟨max_attempts, postInitRetryable retryable⟩

/-- `RetryStrategy.should_retry` (retry.py lines 28-36). -/
def RetryStrategy.should_retry (s : RetryStrategy) (e : Exc) (attempt : Nat) : Bool :=
  if s.max_attempts ≤ attempt then false
  else s.retryable_exceptions.any (fun c => isinstanceOf e c)

/-- The retry loop shared by `execute_sync` (retry.py lines 61-79) and
`execute_async` (lines 38-59); the two differ only in how they invoke the
operation and sleep, not in control flow.  The operation is modelled as a
function from the (1-based) attempt number to its outcome; `delay` models
the strategy's `get_delay`.  Returns the final outcome, the number of
attempts performed and the list of sleep durations, in order.  `fuel`
counts the remaining loop iterations (`max_attempts` at the start), so the
`fuel = 0` base case is the `raise last_exception` line after the loop;
`last` carries `last_exception` (raising `None` when no attempt ran is
Python's `TypeError`, modelled as a generic exception). -/
def executeLoop {α : Type} (s : RetryStrategy) (delay : Nat → ℚ)
    (op : Nat → Except Exc α) (attempt : Nat) (fuel : Nat) (done : Nat)
    (sleeps : List ℚ) (last : Option Exc) : Except Exc α × Nat × List ℚ :=
  match fuel with
  | 0 => (Except.error (last.getD (Exc.genericException "TypeError: exceptions must derive from BaseException")), done, sleeps)
  | fuel' + 1 =>
    match op attempt with
    | Except.ok v => (Except.ok v, done + 1, sleeps)
    | Except.error e =>
      if s.should_retry e attempt then
        if attempt < s.max_attempts then
          executeLoop s delay op (attempt + 1) fuel' (done + 1) (sleeps ++ [delay attempt]) (some e)
        else
          executeLoop s delay op (attempt + 1) fuel' (done + 1) sleeps (some e)
      else
        (Except.error e, done + 1, sleeps)

/-- `RetryStrategy.execute_sync` (retry.py lines 61-79). -/
def RetryStrategy.execute_sync {α : Type} (s : RetryStrategy) (delay : Nat → ℚ)
    (op : Nat → Except Exc α) : Except Exc α × Nat × List ℚ :=
  executeLoop s delay op 1 s.max_attempts 0 [] none

/-- `RetryStrategy.execute_async` (retry.py lines 38-59): identical control
flow to `execute_sync` (the async variant only awaits the operation and the
sleep). -/
def RetryStrategy.execute_async {α : Type} (s : RetryStrategy) (delay : Nat → ℚ)
    (op : Nat → Except Exc α) : Except Exc α × Nat × List ℚ :=
  executeLoop s delay op 1 s.max_attempts 0 [] none

/-- `ExponentialBackoff` dataclass fields (retry.py lines 82-89); it extends
`RetryStrategy`. -/
structure ExponentialBackoff where
  strategy : RetryStrategy
  base_delay : ℚ
  max_delay : ℚ
  multiplier : ℚ
  jitter : Bool

/-- `ExponentialBackoff.get_delay` (retry.py lines 91-103).  `r` models the
value returned by `random.random()`, which lies in `[0, 1)`; the jitter
branch computes `delay * (0.5 + r * 0.5)`. -/
def ExponentialBackoff.get_delay (b : ExponentialBackoff) (attempt : Nat) (r : ℚ) : ℚ :=
  let delay := b.base_delay * b.multiplier ^ (attempt - 1)
  let delay := min delay b.max_delay
  if b.jitter then delay * (1/2 + r * (1/2)) else delay

/-! ## Token bucket (network/rate_limiter.py)

Times and token counts are Python floats, modelled as exact rationals;
`capacity` and the `tokens` argument of `consume`/`wait_time` are Python
ints, modelled as integers. -/

/-- `TokenBucket` dataclass fields (rate_limiter.py lines 9-16). -/
structure TokenBucket where
  capacity : ℤ
  refill_rate : ℚ
  tokens : ℚ
  last_refill : ℚ
deriving DecidableEq

/-- `TokenBucket.__post_init__` (rate_limiter.py lines 18-21): start full,
stamped with the current time. -/
def TokenBucket.init (capacity : ℤ) (refill_rate : ℚ) (now : ℚ) : TokenBucket :=
  ⟨capacity, refill_rate, (capacity : ℚ), now⟩

/-- `TokenBucket._refill` (rate_limiter.py lines 23-31). -/
def TokenBucket.refill (b : TokenBucket) (now : ℚ) : TokenBucket :=
  let elapsed := now - b.last_refill
  let tokens_to_add := elapsed * b.refill_rate
  { b with tokens := min (b.capacity : ℚ) (b.tokens + tokens_to_add), last_refill := now }

/-- `TokenBucket.consume` (rate_limiter.py lines 33-40): refill, then take
`tokens` units if available.  Returns the success flag and the new bucket. -/
def TokenBucket.consume (b : TokenBucket) (now : ℚ) (tokens : ℤ) : Bool × TokenBucket :=
  let b := b.refill now
  if (tokens : ℚ) ≤ b.tokens then (true, { b with tokens := b.tokens - (tokens : ℚ) })
  else (false, b)

/-- `TokenBucket.wait_time` (rate_limiter.py lines 42-50). -/
def TokenBucket.wait_time (b : TokenBucket) (now : ℚ) (tokens : ℤ) : ℚ × TokenBucket :=
  let b := b.refill now
  if (tokens : ℚ) ≤ b.tokens then (0, b)
  else (((tokens : ℚ) - b.tokens) / b.refill_rate, b)

/-- One scripted interaction with a bucket: let `dt` seconds of wall-clock
time pass, then call `consume n`. -/
def TokenBucket.step (b : TokenBucket) (op : ℚ × ℤ) : TokenBucket :=
  (b.consume (b.last_refill + op.1) op.2).2

/-- Run a sequence of time-advance-then-consume interactions. -/
def TokenBucket.runOps (b : TokenBucket) (ops : List (ℚ × ℤ)) : TokenBucket :=
  ops.foldl TokenBucket.step b

/-- The bucket invariant of the data model: `0 ≤ tokens ≤ capacity`. -/
def TokenBucket.Inv (b : TokenBucket) : Prop :=
  0 ≤ b.tokens ∧ b.tokens ≤ (b.capacity : ℚ)

/-! ## Token provider (auth/token_provider.py) -/

/-- The mutable cache of `TokenProvider`: `_token` and `_token_expires_at`
(token_provider.py lines 33-35). -/
structure TokenProviderState where
  token : Option String
  token_expires_at : Option ℚ
deriving DecidableEq

/-- The freshly constructed provider: both fields `None`. -/
def TokenProviderState.empty : TokenProviderState := ⟨none, none⟩

/-- Python truthiness of `Optional[str]`: `None` and `""` are falsy. -/
def pyFalsyStr : Option String → Bool
  | none => true
  | some s => s = ""

/-- Python truthiness of `Optional[float]`: `None` and `0.0` are falsy. -/
def pyFalsyNum : Option ℚ → Bool
  | none => true
  | some q => q = 0

/-- `TokenProvider._is_token_valid` (token_provider.py lines 66-72): false
when `_token` or `_token_expires_at` is falsy, else `now < expires_at - 60`
(the 60-second safety margin). -/
def is_token_valid (st : TokenProviderState) (now : ℚ) : Bool :=
  if pyFalsyStr st.token || pyFalsyNum st.token_expires_at then false
  else decide (now < st.token_expires_at.getD 0 - 60)

/-- `TokenProvider.is_authenticated` (token_provider.py lines 164-166): a
pure read delegating to `_is_token_valid`; it takes no state in and returns
no state, so it can neither mutate the cache nor call the transport. -/
def is_authenticated (st : TokenProviderState) (now : ℚ) : Bool :=
  is_token_valid st now

/-- A parsed token-issuance response as the Python code discriminates it
(token_provider.py lines 91-97): a dict with a `"content"` key, a dict
without one, a bare string, or any other object rendered by `str()`.  The
non-string cases carry the string the subsequent code operates on (the
`content` value, resp. the `str(response)` rendering). -/
inductive PyResponse where
  | dictWithContent (content : String)
  | dictWithoutContent (reprStr : String)
  | pyStr (s : String)
  | otherObj (reprStr : String)
deriving DecidableEq

/-- Python `s.strip(c)` for a single-character strip set: remove ALL
leading and ALL trailing occurrences of `c`. -/
def pyStrip (s : String) (c : Char) : String :=
  String.mk (((s.toList.dropWhile (fun x => x = c)).reverse.dropWhile (fun x => x = c)).reverse)

/-- The token-extraction switch of `_refresh_token` /
`_refresh_token_sync` (token_provider.py lines 91-97 and 127-133): every
branch applies `.strip(chr 34)` to the selected string. -/
def extractToken : PyResponse → String
  | .dictWithContent s => pyStrip s '"'
  | .dictWithoutContent r => pyStrip r '"'
  | .pyStr s => pyStrip s '"'
  | .otherObj r => pyStrip r '"'

/-- Outcome of the transport `post` call inside a refresh. -/
inductive TransportResult where
  | success (resp : PyResponse)
  | failure (e : Exc)
deriving DecidableEq

/-- The `except` clause of `_refresh_token` (token_provider.py lines
105-108): an `AuthenticationError` is re-raised as is, anything else is
wrapped in a fresh `AuthenticationError` naming the cause. -/
def wrapRefreshError (e : Exc) : Exc :=
  if isinstanceOf e ExcClass.authenticationErrorClass then e
  else Exc.authenticationError ("Failed to obtain access token: " ++ e.msgStr)

/-- `TokenProvider._refresh_token` / `_refresh_token_sync`
(token_provider.py lines 74-108 and 110-144), for a configured adapter:
on transport failure the exception is wrapped and re-raised before any
assignment to `_token` / `_token_expires_at` runs, so the cache fields
keep their prior values; on success the extracted token is cached with
expiry `now + ttl` unless it is empty, in which case an
`AuthenticationError` is raised (again before any assignment).  Returns
the raised-or-ok outcome together with the cache state afterwards. -/
def refresh_token (st : TokenProviderState) (ttl now : ℚ) (tr : TransportResult) :
    Except Exc Unit × TokenProviderState :=
  match tr with
  | .failure e => (Except.error (wrapRefreshError e), st)
  | .success resp =>
    let token := extractToken resp
    if token = "" then
      (Except.error (Exc.authenticationError "Empty token received from Magento API"), st)
    else
      (Except.ok (), ⟨some token, some (now + ttl)⟩)

/-- `TokenProvider.get_token` (token_provider.py lines 41-48) as executed
under the `asyncio.Lock` (so the body runs without interleaving): return
the cached token if valid and not forced, else refresh and return the new
token.  The third component counts transport token-issuance calls made by
this invocation (the refresh body performs exactly one `post`). -/
def get_token (st : TokenProviderState) (ttl now : ℚ) (force_refresh : Bool)
    (tr : TransportResult) : Except Exc String × TokenProviderState × Nat :=
  if force_refresh = false ∧ is_token_valid st now then
    (Except.ok (st.token.getD ""), st, 0)
  else
    match refresh_token st ttl now tr with
    | (Except.error e, st') => (Except.error e, st', 1)
    | (Except.ok _, st') => (Except.ok (st'.token.getD ""), st', 1)

/-- Run `n` async callers of `get_token(force_refresh=false)` back to back,
as the `asyncio.Lock` serializes them on one event loop; every refresh is
answered by the same transport outcome `tr`.  Returns the final cache
state, the total number of transport calls, and every caller's result. -/
def runAsyncCallers (ttl now : ℚ) (tr : TransportResult) :
    Nat → TokenProviderState × Nat × List (Except Exc String)
  | 0 => (TokenProviderState.empty, 0, [])
  | n + 1 =>
    let (st, calls, results) := runAsyncCallers ttl now tr n
    let (res, st', c) := get_token st ttl now false tr
    (st', calls + c, results ++ [res])

/-! ## Interleaving model of the sync call surface

`get_token_sync` (token_provider.py lines 50-64) guards the cache with the
plain boolean `_sync_token_lock` (line 39): it busy-waits while the flag is
set, then sets it, runs the body, and clears it in a `finally`.  The wait
(`while self._sync_token_lock: time.sleep(0.1)`) and the store
(`self._sync_token_lock = True`) are separate statements, so a thread can
be preempted between them.  The machine below runs two OS threads, each
executing `get_token_sync(force_refresh=False)` against a shared provider
whose transport always succeeds with the same response, one statement at a
time.  Program counter values of a thread:
0 = about to test the busy-wait condition; 1 = about to set the flag;
2 = about to test `not force_refresh and self._is_token_valid()`;
3 = about to call `http_adapter.post_sync` (the token-issuance transport
call); 4 = about to store `_token` / `_token_expires_at`; 5 = about to read
`self._token` for the return; 6 = about to clear the flag in `finally`;
7 = finished. -/

structure SyncMachine where
  flag : Bool
  cache : TokenProviderState
  transportCalls : Nat
  pcA : Nat
  pcB : Nat
  resA : Option String
  resB : Option String
deriving DecidableEq

/-- Two threads about to call `get_token_sync` on a fresh provider. -/
def SyncMachine.init : SyncMachine :=
  ⟨false, TokenProviderState.empty, 0, 0, 0, none, none⟩

/-- Execute one statement of one thread's `get_token_sync` run.  `ttl`,
`now` and `tok` are the provider's TTL, the (frozen) wall clock, and the
token the transport's response yields after extraction. -/
def syncStep (ttl now : ℚ) (tok : String) (m : SyncMachine) (threadB : Bool) : SyncMachine :=
  let pc := if threadB then m.pcB else m.pcA
  let setPc := fun (m' : SyncMachine) (v : Nat) =>
    if threadB then { m' with pcB := v } else { m' with pcA := v }
  let setRes := fun (m' : SyncMachine) (v : Option String) =>
    if threadB then { m' with resB := v } else { m' with resA := v }
  match pc with
  | 0 => if m.flag then m else setPc m 1
  | 1 => setPc { m with flag := true } 2
  | 2 => if is_token_valid m.cache now then setPc (setRes m m.cache.token) 6 else setPc m 3
  | 3 => setPc { m with transportCalls := m.transportCalls + 1 } 4
  | 4 => setPc { m with cache := ⟨some tok, some (now + ttl)⟩ } 5
  | 5 => setPc (setRes m m.cache.token) 6
  | 6 => setPc { m with flag := false } 7
  | _ => m

/-- Run a schedule (a list of thread choices; `false` = thread A). -/
def syncRun (ttl now : ℚ) (tok : String) (sched : List Bool) : SyncMachine :=
  sched.foldl (syncStep ttl now tok) SyncMachine.init

/-! ## The spec's one-layer unquoting, for comparison with the source's
`strip` (refinement comparison for the token-extraction claim). -/

/-- Remove one leading occurrence of a double quote, if present. -/
def dropOneLeadingQuote (l : List Char) : List Char :=
  match l with
  | '"' :: rest => rest
  | l => l

/-- Modelled from the spec's words, NOT from the source: trim exactly one
layer of surrounding double-quote characters (one leading and one trailing),
"so a token whose own text begins or ends with additional quote characters
keeps them". -/
def stripOneLayerSpec (s : String) : String :=
  String.mk ((dropOneLeadingQuote ((dropOneLeadingQuote s.toList).reverse)).reverse)

/-- The string each branch of the extraction switch feeds to `.strip`:
the `content` value for a dict carrying one, the string itself, or the
`str()` rendering. -/
def PyResponse.raw : PyResponse → String
  | .dictWithContent s => s
  | .dictWithoutContent r => r
  | .pyStr s => s
  | .otherObj r => r

/-! ## Helper lemmas -/

/-- Every modelled exception is an instance of builtin `Exception`. -/
theorem isinstance_exceptionBase (e : Exc) : isinstanceOf e ExcClass.exceptionBase = true := by
  cases e <;> rfl

/-- The extraction switch always applies `strip` to the selected raw
string. -/
theorem extractToken_eq_pyStrip (resp : PyResponse) :
    extractToken resp = pyStrip resp.raw '"' := by
  cases resp <;> rfl

/-- The retry configuration of the retry-exhaustion scenario:
`ExponentialBackoff(max_attempts=3, base_delay=1, multiplier=2,
jitter=False)` with the default retryable-exception list. -/
def spec3Strategy : RetryStrategy := RetryStrategy.make 3 none

/-- The backoff object of the retry-exhaustion scenario. -/
def spec3Backoff : ExponentialBackoff := ⟨spec3Strategy, 1, 60, 2, false⟩

/-! ## Claims about the retry strategies -/

/-- Claim C3, counterexample: under
`ExponentialBackoff(maxAttempts=3, baseDelay=1, multiplier=2, jitter=false)`
an operation that always fails with a retryable `NetworkError` is attempted
exactly 3 times with sleeps of 1s then 2s — but the failure surfaced is the
original `NetworkError` itself, not a `RetryExhaustedError` wrapper: the
loop re-raises the last exception bare, refuting the wrapping part of the
claim. -/
theorem c3_counterexample_last_error_not_wrapped :
    spec3Strategy.execute_sync (fun a => spec3Backoff.get_delay a 0)
        (fun _ => (Except.error (Exc.networkError "boom") : Except Exc Unit))
      = (Except.error (Exc.networkError "boom"), 3, [1, 2])
    ∧ (Exc.networkError "boom").isRetryExhausted = false := by
  constructor
  · norm_num [spec3Strategy, spec3Backoff, RetryStrategy.make, postInitRetryable,
      RetryStrategy.execute_sync, executeLoop, RetryStrategy.should_retry,
      isinstanceOf, ExponentialBackoff.get_delay]
  · rfl

/-- Claim C3 (amended): for every operation that always fails with the same
exception (every kind is retryable under the default configuration),
`execute_sync` under `ExponentialBackoff(maxAttempts=3, baseDelay=1,
multiplier=2, jitter=false)` performs exactly 3 attempts, sleeps 1s before
attempt 2 and 2s before attempt 3, and then surfaces the last underlying
exception unchanged — it is never wrapped in a `RetryExhaustedError` (that
class is defined in exceptions/network.py but never raised by the retry
loop). -/
theorem c3_three_attempts_then_last_error_unchanged (e : Exc)
    (op : Nat → Except Exc Unit) (hop : ∀ a, op a = Except.error e) :
    spec3Strategy.execute_sync (fun a => spec3Backoff.get_delay a 0) op
      = (Except.error e, 3, [1, 2]) := by
  have h1 := hop 1
  have h2 := hop 2
  have h3 := hop 3
  norm_num [spec3Strategy, spec3Backoff, RetryStrategy.make, postInitRetryable,
    RetryStrategy.execute_sync, executeLoop, RetryStrategy.should_retry,
    isinstance_exceptionBase, ExponentialBackoff.get_delay, h1, h2, h3]

/-- Witness for the amended retry-exhaustion theorem at a concrete
always-failing operation. -/
theorem c3_three_attempts_then_last_error_unchanged_witness :
    spec3Strategy.execute_sync (fun a => spec3Backoff.get_delay a 0)
        (fun _ => (Except.error (Exc.timeoutError "slow") : Except Exc Unit))
      = (Except.error (Exc.timeoutError "slow"), 3, [1, 2]) :=
  c3_three_attempts_then_last_error_unchanged (Exc.timeoutError "slow")
    (fun _ => Except.error (Exc.timeoutError "slow")) (fun _ => rfl)

/-- Claim C4: an operation whose attempt-1 failure is non-retryable makes
`execute_async` perform exactly 1 attempt regardless of `max_attempts`,
sleep never, and propagate that exact failure unchanged. -/
theorem c4_nonretryable_short_circuit {α : Type} (s : RetryStrategy)
    (delay : Nat → ℚ) (op : Nat → Except Exc α) (e : Exc)
    (hmax : 1 ≤ s.max_attempts) (hop : op 1 = Except.error e)
    (hnr : s.should_retry e 1 = false) :
    s.execute_async delay op = (Except.error e, 1, []) := by
  unfold RetryStrategy.execute_async
  obtain ⟨k, hk⟩ : ∃ k, s.max_attempts = k + 1 := ⟨s.max_attempts - 1, by omega⟩
  rw [hk]
  simp [executeLoop, hop, hnr]

/-- Witness for the non-retryable short-circuit theorem: a strategy that
only retries network errors, hit by a validation error on attempt 1. -/
theorem c4_nonretryable_short_circuit_witness :
    (RetryStrategy.make 5 (some [ExcClass.networkErrorClass])).execute_async
        (fun _ => (1 : ℚ))
        (fun _ => (Except.error (Exc.validationError "bad input") : Except Exc Unit))
      = (Except.error (Exc.validationError "bad input"), 1, []) :=
  c4_nonretryable_short_circuit (RetryStrategy.make 5 (some [ExcClass.networkErrorClass]))
    (fun _ => (1 : ℚ))
    (fun _ => Except.error (Exc.validationError "bad input"))
    (Exc.validationError "bad input") (by decide) rfl (by decide)

/-- Claim C10: a strategy constructed without an explicit
retryable-exception list defaults to `[Exception]`, so every exception kind
is retryable: for every exception `e` and attempt `a < max_attempts`,
`should_retry e a` is true — nothing short-circuits early unless the caller
restricts the set. -/
theorem c10_default_retryable_is_everything (m : Nat) (e : Exc) (a : Nat)
    (h : a < m) :
    (RetryStrategy.make m none).should_retry e a = true := by
  simp [RetryStrategy.make, postInitRetryable, RetryStrategy.should_retry,
    Nat.not_le.mpr h, isinstance_exceptionBase]

/-- Witness for the default-retryable theorem: an authentication failure is
retried under the default configuration. -/
theorem c10_default_retryable_is_everything_witness :
    (RetryStrategy.make 3 none).should_retry (Exc.authenticationError "denied") 1 = true :=
  c10_default_retryable_is_everything 3 (Exc.authenticationError "denied") 1 (by decide)

/-- Claim C8: for attempt `a ≥ 1`, `ExponentialBackoff.get_delay` returns
`min(base_delay * multiplier^(a-1), max_delay)` with jitter disabled, and
with jitter enabled that same value scaled by `0.5 + r * 0.5` where `r` is
the `random.random()` draw in `[0, 1)` — a factor lying in `[1/2, 1]`, so
the jittered delay is never below half of and never above the unjittered
delay. -/
theorem c8_exponential_backoff_delay (b : ExponentialBackoff) (a : Nat) (r : ℚ)
    (_ha : 1 ≤ a) (hbase : 0 ≤ b.base_delay) (hmult : 0 ≤ b.multiplier)
    (hmaxd : 0 ≤ b.max_delay) (hr0 : 0 ≤ r) (hr1 : r < 1) :
    (b.jitter = false →
      b.get_delay a r = min (b.base_delay * b.multiplier ^ (a - 1)) b.max_delay)
    ∧ (b.jitter = true →
      b.get_delay a r
          = min (b.base_delay * b.multiplier ^ (a - 1)) b.max_delay * (1/2 + r * (1/2))
        ∧ (1/2 : ℚ) ≤ 1/2 + r * (1/2) ∧ 1/2 + r * (1/2) ≤ 1
        ∧ min (b.base_delay * b.multiplier ^ (a - 1)) b.max_delay / 2 ≤ b.get_delay a r
        ∧ b.get_delay a r ≤ min (b.base_delay * b.multiplier ^ (a - 1)) b.max_delay) := by
  have hd : 0 ≤ min (b.base_delay * b.multiplier ^ (a - 1)) b.max_delay :=
    le_min (mul_nonneg hbase (pow_nonneg hmult _)) hmaxd
  have hf1 : (1/2 : ℚ) ≤ 1/2 + r * (1/2) := by linarith
  have hf2 : 1/2 + r * (1/2) ≤ 1 := by linarith
  constructor
  · intro hj
    simp [ExponentialBackoff.get_delay, hj]
  · intro hj
    refine ⟨by simp [ExponentialBackoff.get_delay, hj], hf1, hf2, ?_, ?_⟩
    · calc min (b.base_delay * b.multiplier ^ (a - 1)) b.max_delay / 2
          = min (b.base_delay * b.multiplier ^ (a - 1)) b.max_delay * (1/2) := by ring
        _ ≤ min (b.base_delay * b.multiplier ^ (a - 1)) b.max_delay * (1/2 + r * (1/2)) :=
          mul_le_mul_of_nonneg_left hf1 hd
        _ = b.get_delay a r := by simp [ExponentialBackoff.get_delay, hj]
    · calc b.get_delay a r
          = min (b.base_delay * b.multiplier ^ (a - 1)) b.max_delay * (1/2 + r * (1/2)) := by
            simp [ExponentialBackoff.get_delay, hj]
        _ ≤ min (b.base_delay * b.multiplier ^ (a - 1)) b.max_delay * 1 :=
          mul_le_mul_of_nonneg_left hf2 hd
        _ = min (b.base_delay * b.multiplier ^ (a - 1)) b.max_delay := by ring

/-- Witness for the backoff-delay theorem at
`ExponentialBackoff(base_delay=1, max_delay=60, multiplier=2, jitter=True)`,
attempt 3, `random.random() = 1/2`. -/
theorem c8_exponential_backoff_delay_witness :
    ((⟨spec3Strategy, 1, 60, 2, true⟩ : ExponentialBackoff).jitter = false →
      (⟨spec3Strategy, 1, 60, 2, true⟩ : ExponentialBackoff).get_delay 3 (1/2)
        = min ((1 : ℚ) * 2 ^ (3 - 1)) 60)
    ∧ ((⟨spec3Strategy, 1, 60, 2, true⟩ : ExponentialBackoff).jitter = true →
      (⟨spec3Strategy, 1, 60, 2, true⟩ : ExponentialBackoff).get_delay 3 (1/2)
          = min ((1 : ℚ) * 2 ^ (3 - 1)) 60 * (1/2 + (1/2) * (1/2))
        ∧ (1/2 : ℚ) ≤ 1/2 + (1/2) * (1/2) ∧ (1/2 + (1/2) * (1/2) : ℚ) ≤ 1
        ∧ min ((1 : ℚ) * 2 ^ (3 - 1)) 60 / 2
            ≤ (⟨spec3Strategy, 1, 60, 2, true⟩ : ExponentialBackoff).get_delay 3 (1/2)
        ∧ (⟨spec3Strategy, 1, 60, 2, true⟩ : ExponentialBackoff).get_delay 3 (1/2)
            ≤ min ((1 : ℚ) * 2 ^ (3 - 1)) 60) :=
  c8_exponential_backoff_delay ⟨spec3Strategy, 1, 60, 2, true⟩ 3 (1/2)
    (by norm_num) (by norm_num) (by norm_num) (by norm_num) (by norm_num) (by norm_num)

/-! ## Claims about the token bucket -/

/-- `_refill` keeps the invariant when the rate is nonnegative and the
clock has not gone backwards. -/
theorem bucket_refill_inv (b : TokenBucket) (now : ℚ) (hInv : b.Inv)
    (hrate : 0 ≤ b.refill_rate) (hdt : b.last_refill ≤ now) :
    (b.refill now).Inv := by
  obtain ⟨h0, hcap⟩ := hInv
  have hcap0 : (0 : ℚ) ≤ (b.capacity : ℚ) := le_trans h0 hcap
  have hadd : 0 ≤ (now - b.last_refill) * b.refill_rate :=
    mul_nonneg (by linarith) hrate
  constructor
  · exact le_min hcap0 (by linarith)
  · exact min_le_left _ _

/-- `refill` changes neither `capacity` nor `refill_rate`. -/
theorem bucket_refill_fields (b : TokenBucket) (now : ℚ) :
    (b.refill now).capacity = b.capacity ∧ (b.refill now).refill_rate = b.refill_rate :=
  ⟨rfl, rfl⟩

/-- `consume` unfolded: refill first, then the branch on availability. -/
theorem bucket_consume_eq (b : TokenBucket) (now : ℚ) (n : ℤ) :
    b.consume now n =
      if (n : ℚ) ≤ (b.refill now).tokens
      then (true, { b.refill now with tokens := (b.refill now).tokens - (n : ℚ) })
      else (false, b.refill now) := rfl

/-- `wait_time` unfolded. -/
theorem bucket_wait_time_eq (b : TokenBucket) (now : ℚ) (n : ℤ) :
    b.wait_time now n =
      if (n : ℚ) ≤ (b.refill now).tokens
      then (0, b.refill now)
      else (((n : ℚ) - (b.refill now).tokens) / b.refill_rate, b.refill now) := rfl

/-- `consume` changes neither `capacity` nor `refill_rate`. -/
theorem bucket_consume_fields (b : TokenBucket) (now : ℚ) (n : ℤ) :
    (b.consume now n).2.capacity = b.capacity
    ∧ (b.consume now n).2.refill_rate = b.refill_rate := by
  rw [bucket_consume_eq]
  split_ifs <;> exact ⟨rfl, rfl⟩

/-- `consume` with a positive request keeps the invariant, and a failed
`consume` leaves the bucket exactly as the refill left it. -/
theorem bucket_consume_inv (b : TokenBucket) (now : ℚ) (n : ℤ) (hInv : b.Inv)
    (hrate : 0 ≤ b.refill_rate) (hdt : b.last_refill ≤ now) (hn : 1 ≤ n) :
    ((b.consume now n).2).Inv
    ∧ ((b.consume now n).1 = false → (b.consume now n).2 = b.refill now) := by
  obtain ⟨hR0, hRcap⟩ := bucket_refill_inv b now hInv hrate hdt
  have hn0 : (0 : ℚ) ≤ (n : ℚ) := by exact_mod_cast le_trans (by norm_num) hn
  rw [bucket_consume_eq]
  by_cases h : (n : ℚ) ≤ (b.refill now).tokens
  · rw [if_pos h]
    refine ⟨⟨?_, ?_⟩, ?_⟩
    · show (0 : ℚ) ≤ (b.refill now).tokens - (n : ℚ)
      linarith
    · show (b.refill now).tokens - (n : ℚ) ≤ ((b.refill now).capacity : ℚ)
      linarith
    · intro hfalse
      exact absurd hfalse (by simp)
  · rw [if_neg h]
    exact ⟨⟨hR0, hRcap⟩, fun _ => rfl⟩

/-- A scripted step preserves the invariant and the bucket's refill rate. -/
theorem bucket_step_inv (b : TokenBucket) (p : ℚ × ℤ) (hInv : b.Inv)
    (hrate : 0 ≤ b.refill_rate) (hp : 0 ≤ p.1 ∧ 1 ≤ p.2) :
    (b.step p).Inv ∧ (b.step p).refill_rate = b.refill_rate := by
  have h := bucket_consume_inv b (b.last_refill + p.1) p.2 hInv hrate
    (by linarith [hp.1]) hp.2
  exact ⟨h.1, (bucket_consume_fields b (b.last_refill + p.1) p.2).2⟩

/-- Claim C5: starting from a full bucket with positive capacity and
positive refill rate, any sequence of `consume(n)` calls with `n ≥ 1`,
interleaved with nonnegative wall-clock advances, keeps
`0 ≤ tokens ≤ capacity` after every operation (every prefix of the script
is itself a script, so the bound holds at each intermediate state); and a
failed `consume` leaves the bucket exactly as its refill left it. -/
theorem c5_token_bucket_conservation (capacity : ℤ) (rate now0 : ℚ)
    (ops : List (ℚ × ℤ)) (hcap : 0 < capacity) (hrate : 0 < rate)
    (hops : ∀ p ∈ ops, 0 ≤ p.1 ∧ 1 ≤ p.2) :
    ((TokenBucket.init capacity rate now0).runOps ops).Inv
    ∧ (∀ (b : TokenBucket) (now : ℚ) (n : ℤ),
        (b.consume now n).1 = false → (b.consume now n).2 = b.refill now) := by
  constructor
  · have hgen : ∀ (l : List (ℚ × ℤ)) (b : TokenBucket), b.Inv → 0 ≤ b.refill_rate →
        (∀ p ∈ l, 0 ≤ p.1 ∧ 1 ≤ p.2) → (b.runOps l).Inv := by
      intro l
      induction l with
      | nil => intro b hb _ _; exact hb
      | cons p t ih =>
        intro b hb hr hl
        have hstep := bucket_step_inv b p hb hr (hl p (List.mem_cons_self p t))
        have : (b.runOps (p :: t)) = ((b.step p).runOps t) := rfl
        rw [this]
        exact ih (b.step p) hstep.1 (hstep.2 ▸ hr)
          (fun q hq => hl q (List.mem_cons_of_mem p hq))
    refine hgen ops (TokenBucket.init capacity rate now0) ⟨?_, ?_⟩ (le_of_lt hrate) hops
    · show (0 : ℚ) ≤ (capacity : ℚ)
      exact_mod_cast le_of_lt hcap
    · exact le_refl _
  · intro b now n hfail
    rw [bucket_consume_eq] at hfail ⊢
    by_cases hc : ((n : ℚ) ≤ (b.refill now).tokens)
    · rw [if_pos hc] at hfail
      exact absurd hfail (by simp)
    · rw [if_neg hc]

/-- Witness for the bucket-conservation theorem: capacity 5, rate 1,
script "wait 0s, take 1; wait 2s, take 3". -/
theorem c5_token_bucket_conservation_witness :
    ((TokenBucket.init 5 1 0).runOps [(0, 1), (2, 3)]).Inv
    ∧ (∀ (b : TokenBucket) (now : ℚ) (n : ℤ),
        (b.consume now n).1 = false → (b.consume now n).2 = b.refill now) :=
  c5_token_bucket_conservation 5 1 0 [(0, 1), (2, 3)] (by norm_num) (by norm_num)
    (by intro p hp; fin_cases hp <;> norm_num)

/-- Claim C9, counterexample: the code performs no validation of `n` at
all.  On a full bucket of capacity 10 (rate 1), `consume(-5)` is not
rejected: it succeeds and ADDS 5 tokens, leaving `tokens = 15`, above
capacity. -/
theorem c9_counterexample_negative_consume_succeeds :
    (TokenBucket.consume (TokenBucket.init 10 1 0) 0 (-5))
      = (true, ⟨10, 1, 15, 0⟩)
    ∧ ((10 : ℚ) < 15) := by
  constructor
  · norm_num [TokenBucket.consume, TokenBucket.init, TokenBucket.refill]
  · norm_num

/-- Claim C9 (amended): `consume` and `wait_time` validate nothing.  For
every `n ≤ 0`, whenever the refilled token count is nonnegative,
`consume(n)` succeeds and sets `tokens` to the refilled count minus `n` —
i.e. it adds `-n` tokens, possibly exceeding `capacity` until a later
refill clamps it — and `wait_time(n)` returns 0. -/
theorem c9_nonpositive_consume_not_rejected (b : TokenBucket) (now : ℚ) (n : ℤ)
    (hn : n ≤ 0) (htok : 0 ≤ (b.refill now).tokens) :
    (b.consume now n).1 = true
    ∧ (b.consume now n).2.tokens = (b.refill now).tokens - (n : ℚ)
    ∧ (b.refill now).tokens ≤ (b.consume now n).2.tokens
    ∧ (b.wait_time now n).1 = 0 := by
  have hn0 : (n : ℚ) ≤ 0 := by exact_mod_cast hn
  have hc : (n : ℚ) ≤ (b.refill now).tokens := le_trans hn0 htok
  rw [bucket_consume_eq, bucket_wait_time_eq, if_pos hc, if_pos hc]
  refine ⟨rfl, rfl, ?_, rfl⟩
  show (b.refill now).tokens ≤ (b.refill now).tokens - (n : ℚ)
  linarith

/-- Witness for the no-rejection theorem: `consume(0)` on a fresh bucket
of capacity 3. -/
theorem c9_nonpositive_consume_not_rejected_witness :
    ((TokenBucket.init 3 1 7).consume 7 0).1 = true
    ∧ ((TokenBucket.init 3 1 7).consume 7 0).2.tokens
        = ((TokenBucket.init 3 1 7).refill 7).tokens - ((0 : ℤ) : ℚ)
    ∧ ((TokenBucket.init 3 1 7).refill 7).tokens
        ≤ ((TokenBucket.init 3 1 7).consume 7 0).2.tokens
    ∧ ((TokenBucket.init 3 1 7).wait_time 7 0).1 = 0 :=
  c9_nonpositive_consume_not_rejected (TokenBucket.init 3 1 7) 7 0 (by norm_num)
    (by norm_num [TokenBucket.init, TokenBucket.refill])

/-! ## Claims about the token provider's refresh and validity logic -/

/-- Claim C2, counterexample: a `get_token(force_refresh=True)` call on a
Valid cache (token `"oldtok"`, expiry 10000, clock 100) whose transport
fails surfaces an `AuthenticationError` — but the cache is NOT left Empty:
the except-path of `_refresh_token` re-raises without clearing `_token` /
`_token_expires_at`, so the stale token stays cached and the provider even
still reports `is_authenticated() == True`. -/
theorem c2_counterexample_failed_refresh_keeps_stale_token :
    get_token ⟨some "oldtok", some 10000⟩ 14400 100 true
        (TransportResult.failure (Exc.networkError "conn refused"))
      = (Except.error
           (Exc.authenticationError ("Failed to obtain access token: conn refused")),
         ⟨some "oldtok", some 10000⟩, 1)
    ∧ (⟨some "oldtok", some 10000⟩ : TokenProviderState).token ≠ none
    ∧ is_authenticated ⟨some "oldtok", some 10000⟩ 100 = true := by
  refine ⟨?_, by decide, ?_⟩
  · have hs : "Failed to obtain access token: " ++ "conn refused"
        = "Failed to obtain access token: conn refused" := by decide
    simp [get_token, refresh_token, wrapRefreshError, isinstanceOf, Exc.msgStr,
      is_token_valid, pyFalsyStr, pyFalsyNum, hs]
  · norm_num [is_authenticated, is_token_valid, pyFalsyStr, pyFalsyNum]
    decide

/-- Claim C2 (amended): when a refresh attempt ends in a transport failure,
the failure is surfaced as an `AuthenticationError` (the original exception
if it already is one, otherwise a wrapper naming the cause), and the cache
is left exactly as it was before the call: a previously Empty cache stays
Empty, but a previously Valid cache keeps its old credential and expiry —
the code never clears them on failure. -/
theorem c2_refresh_failure_surfaces_auth_error_state_unchanged
    (st : TokenProviderState) (ttl now : ℚ) (e : Exc) :
    get_token st ttl now true (TransportResult.failure e)
      = (Except.error (wrapRefreshError e), st, 1)
    ∧ isinstanceOf (wrapRefreshError e) ExcClass.authenticationErrorClass = true := by
  constructor
  · simp [get_token, refresh_token]
  · cases e <;> simp [wrapRefreshError, isinstanceOf]

/-- Claim C7, counterexample: python truthiness makes `_is_token_valid`
treat an empty-string credential as absent.  In the state
`(_token = "", _token_expires_at = 1000)` at time 0, a credential and an
expiry are both present and `0 < 1000 - 60`, yet `is_authenticated()`
returns `False` — refuting the claimed if-and-only-if over every cache
state. -/
theorem c7_counterexample_empty_string_credential :
    (⟨some "", some 1000⟩ : TokenProviderState).token.isSome = true
    ∧ (⟨some "", some 1000⟩ : TokenProviderState).token_expires_at = some 1000
    ∧ ((0 : ℚ) < 1000 - 60)
    ∧ is_authenticated ⟨some "", some 1000⟩ 0 = false := by
  refine ⟨rfl, rfl, by norm_num, ?_⟩
  simp [is_authenticated, is_token_valid, pyFalsyStr]

/-- Claim C7 (amended): for every cache state whose credential, when
present, is non-empty (Python truthiness treats `""` like `None`; the class
itself never caches an empty token) and for every nonnegative clock,
`is_authenticated()` returns true iff a credential is present and the
expiry is present with `now < expiresAt - 60`; it is a pure read — in this
embedding it is a function of the state that returns only a boolean, so it
can neither mutate the cache nor trigger a transport call.  Consequently a
token with ttl 100 issued at 0 is reported valid at 39 and invalid at
41. -/
theorem c7_is_authenticated_iff (st : TokenProviderState) (now : ℚ)
    (hnonempty : ∀ t, st.token = some t → t ≠ "") (hnow : 0 ≤ now) :
    (is_authenticated st now = true ↔
      st.token.isSome = true
      ∧ ∃ e, st.token_expires_at = some e ∧ now < e - 60) := by
  obtain ⟨tok, exp⟩ := st
  cases tok with
  | none => simp [is_authenticated, is_token_valid, pyFalsyStr]
  | some t =>
    have ht : ¬ (t = "") := hnonempty t rfl
    cases exp with
    | none => simp [is_authenticated, is_token_valid, pyFalsyStr, pyFalsyNum, ht]
    | some e =>
      by_cases he : e = 0
      · subst he
        simp only [is_authenticated, is_token_valid, pyFalsyStr, pyFalsyNum]
        simp [ht]
        linarith
      · simp [is_authenticated, is_token_valid, pyFalsyStr, pyFalsyNum, ht, he]

/-- Witness for the authentication-read theorem: a token issued at time 0
with ttl 100 (expiry 100), read at time 39. -/
theorem c7_is_authenticated_iff_witness :
    is_authenticated ⟨some "tok", some 100⟩ 39 = true ↔
      (⟨some "tok", some 100⟩ : TokenProviderState).token.isSome = true
      ∧ ∃ e, (⟨some "tok", some 100⟩ : TokenProviderState).token_expires_at = some e
          ∧ (39 : ℚ) < e - 60 :=
  c7_is_authenticated_iff ⟨some "tok", some 100⟩ 39
    (by intro t ht; cases ht; decide) (by norm_num)

/-! ## Claims about token extraction (the unquoting shim) -/

/-- The head of what `dropWhile` leaves never satisfies the predicate. -/
theorem head_dropWhile_not (p : Char → Bool) :
    ∀ (l : List Char) (x : Char), (l.dropWhile p).head? = some x → p x = false := by
  intro l
  induction l with
  | nil => intro x h; simp [List.dropWhile] at h
  | cons a t ih =>
    intro x h
    rw [List.dropWhile_cons] at h
    by_cases hp : p a
    · rw [if_pos hp] at h
      exact ih x h
    · rw [if_neg hp] at h
      simp only [List.head?_cons, Option.some.injEq] at h
      rw [← h]
      exact Bool.not_eq_true _ ▸ Bool.of_not_eq_true hp

/-- `dropWhile` keeps a suffix, so a non-empty result ends where the input
ends. -/
theorem getLast_dropWhile_of_ne_nil (p : Char → Bool) (l : List Char)
    (h : l.dropWhile p ≠ []) : (l.dropWhile p).getLast? = l.getLast? := by
  conv_rhs => rw [← List.takeWhile_append_dropWhile p l]
  rw [List.getLast?_append_of_ne_nil _ h]

/-- Python's `strip` decomposition: the input is some run of the stripped
character, then the result, then another run of it. -/
theorem pyStrip_decomposition (s : String) (c : Char) :
    ∃ a b, s.toList
      = List.replicate a c ++ (pyStrip s c).toList ++ List.replicate b c := by
  set p := fun x => decide (x = c) with hp
  set l := s.toList with hl
  set m := l.dropWhile p with hm
  set r := m.reverse.dropWhile p with hr
  obtain ⟨n1, h1⟩ : ∃ n, l.takeWhile p = List.replicate n c := by
    refine ⟨(l.takeWhile p).length, List.eq_replicate_of_mem ?_⟩
    intro b hb
    have := List.mem_takeWhile_imp hb
    simpa [hp] using this
  obtain ⟨n2, h2⟩ : ∃ n, m.reverse.takeWhile p = List.replicate n c := by
    refine ⟨(m.reverse.takeWhile p).length, List.eq_replicate_of_mem ?_⟩
    intro b hb
    have := List.mem_takeWhile_imp hb
    simpa [hp] using this
  have hsplit1 : l = l.takeWhile p ++ m := by
    rw [hm]; exact (List.takeWhile_append_dropWhile p l).symm
  have hsplit2 : m.reverse = m.reverse.takeWhile p ++ r := by
    rw [hr]; exact (List.takeWhile_append_dropWhile p m.reverse).symm
  have hm2 : m = r.reverse ++ (m.reverse.takeWhile p).reverse := by
    have := congrArg List.reverse hsplit2
    simpa using this
  have hres : (pyStrip s c).toList = r.reverse := by
    simp only [pyStrip, hr, hm, hl, hp]
    rfl
  refine ⟨n1, n2, ?_⟩
  rw [hres, hsplit1, hm2, h1, h2, List.reverse_replicate]
  simp [List.append_assoc]

/-- The result of Python's `strip` neither starts nor ends with the
stripped character. -/
theorem pyStrip_ends (s : String) (c : Char) :
    (pyStrip s c).toList.head? ≠ some c
    ∧ (pyStrip s c).toList.getLast? ≠ some c := by
  set p := fun x => decide (x = c) with hp
  set l := s.toList with hl
  set m := l.dropWhile p with hm
  set r := m.reverse.dropWhile p with hr
  have hres : (pyStrip s c).toList = r.reverse := by
    simp only [pyStrip, hr, hm, hl, hp]
    rfl
  have hpc : p c = true := by simp [hp]
  constructor
  · rw [hres, List.head?_reverse]
    intro hlast
    by_cases hnil : r = []
    · rw [hnil] at hlast
      simp at hlast
    · rw [hr, getLast_dropWhile_of_ne_nil p m.reverse (hr ▸ hnil),
        List.getLast?_reverse] at hlast
      have := head_dropWhile_not p l c (hm ▸ hlast)
      rw [hpc] at this
      exact Bool.noConfusion this
  · rw [hres, List.getLast?_reverse]
    intro hhead
    have := head_dropWhile_not p m.reverse c (hr ▸ hhead)
    rw [hpc] at this
    exact Bool.noConfusion this

/-- Claim C6, counterexample: the code applies Python `strip`, which
removes EVERY leading and trailing quote character, not exactly one layer.
On the bare-string response `""abc""` (two quote layers) the code extracts
`abc`, while the one-layer trim of the claim would keep the inner quotes
and yield `"abc"`. -/
theorem c6_counterexample_strip_removes_all_layers :
    extractToken (PyResponse.pyStr "\"\"abc\"\"") = "abc"
    ∧ stripOneLayerSpec "\"\"abc\"\"" = "\"abc\""
    ∧ ("abc" : String) ≠ "\"abc\"" := by
  refine ⟨by decide, by decide, by decide⟩

/-- Claim C6 (amended): for every successful token-issuance response, the
refresh extracts the selected string (the `content` field of a JSON
document, a bare string, or the `str()` rendering of anything else) with
ALL surrounding double-quote characters trimmed — the raw string is a run
of quotes, then the extracted token, then another run of quotes, and the
token neither starts nor ends with a quote; and if the resulting string is
empty the refresh fails with an authentication failure, caching nothing,
while a non-empty result is cached with expiry `now + ttl`. -/
theorem c6_extraction_strips_all_quotes_and_rejects_empty
    (st : TokenProviderState) (ttl now : ℚ) (resp : PyResponse) :
    (∃ a b, resp.raw.toList
        = List.replicate a '"' ++ (extractToken resp).toList ++ List.replicate b '"')
    ∧ (extractToken resp).toList.head? ≠ some '"'
    ∧ (extractToken resp).toList.getLast? ≠ some '"'
    ∧ (extractToken resp = "" →
        refresh_token st ttl now (TransportResult.success resp)
          = (Except.error (Exc.authenticationError "Empty token received from Magento API"), st))
    ∧ (extractToken resp ≠ "" →
        refresh_token st ttl now (TransportResult.success resp)
          = (Except.ok (), ⟨some (extractToken resp), some (now + ttl)⟩)) := by
  refine ⟨?_, ?_, ?_, ?_, ?_⟩
  · rw [extractToken_eq_pyStrip]
    exact pyStrip_decomposition resp.raw '"'
  · rw [extractToken_eq_pyStrip]
    exact (pyStrip_ends resp.raw '"').1
  · rw [extractToken_eq_pyStrip]
    exact (pyStrip_ends resp.raw '"').2
  · intro h
    simp [refresh_token, h]
  · intro h
    simp [refresh_token, h]

/-- Witness for the extraction theorem on the quoted bare-string response
`"tok"`. -/
theorem c6_extraction_strips_all_quotes_and_rejects_empty_witness :
    (∃ a b, (PyResponse.pyStr "\"tok\"").raw.toList
        = List.replicate a '"' ++ (extractToken (PyResponse.pyStr "\"tok\"")).toList
            ++ List.replicate b '"')
    ∧ (extractToken (PyResponse.pyStr "\"tok\"")).toList.head? ≠ some '"'
    ∧ (extractToken (PyResponse.pyStr "\"tok\"")).toList.getLast? ≠ some '"'
    ∧ (extractToken (PyResponse.pyStr "\"tok\"") = "" →
        refresh_token TokenProviderState.empty 14400 0
            (TransportResult.success (PyResponse.pyStr "\"tok\""))
          = (Except.error (Exc.authenticationError "Empty token received from Magento API"),
             TokenProviderState.empty))
    ∧ (extractToken (PyResponse.pyStr "\"tok\"") ≠ "" →
        refresh_token TokenProviderState.empty 14400 0
            (TransportResult.success (PyResponse.pyStr "\"tok\""))
          = (Except.ok (),
             ⟨some (extractToken (PyResponse.pyStr "\"tok\"")), some ((0 : ℚ) + 14400)⟩)) :=
  c6_extraction_strips_all_quotes_and_rejects_empty TokenProviderState.empty 14400 0
    (PyResponse.pyStr "\"tok\"")

/-! ## Claims about single-flight refresh -/

/-- Claim C1, counterexample: two OS threads calling `get_token_sync()` on
an Empty cache can interleave between the busy-wait test and the
`_sync_token_lock = True` store (they are separate statements, so
preemption between them is possible).  The schedule below is a complete
execution — both threads finish (pc 7) and both return `"tok"` — in which
the flag fails to exclude, both threads pass the validity check before
either caches, and the token-issuance transport call happens TWICE, not
once. -/
theorem c1_counterexample_sync_flag_race :
    syncRun 14400 0 "tok"
        [false, true, false, true, false, true, false, true,
         false, false, false, true, true, true]
      = ⟨false, ⟨some "tok", some 14400⟩, 2, 7, 7, some "tok", some "tok"⟩
    ∧ (2 : Nat) ≠ 1 := by
  constructor
  · norm_num [syncRun, syncStep, SyncMachine.init, TokenProviderState.empty,
      is_token_valid, pyFalsyStr, pyFalsyNum]
  · norm_num

/-- A freshly refreshed cache passes the validity check at the refresh
instant whenever the token is non-empty, the clock is nonnegative and the
TTL exceeds the 60-second safety margin. -/
theorem valid_after_refresh (tok : String) (ttl now : ℚ)
    (htok : tok ≠ "") (hnow : 0 ≤ now) (httl : 60 < ttl) :
    is_token_valid ⟨some tok, some (now + ttl)⟩ now = true := by
  have hz : ¬ (now + ttl = 0) := by linarith
  simp [is_token_valid, pyFalsyStr, pyFalsyNum, htok, hz]
  linarith

/-- Claim C1 (amended): single-flight holds on the ASYNC surface, whose
`asyncio.Lock` serializes the whole `get_token` body on one event loop:
for every `N = k + 1 ≥ 1` async callers of `getToken()` on an Empty cache
whose transport succeeds with a non-empty token, exactly one token-issuance
transport call is made and all `N` callers receive the same token string.
(The sync surface does NOT share the guarantee — its boolean busy-wait
flag is not an atomic lock, see the counterexample — and the flag does not
serialize against the async lock either.) -/
theorem c1_async_single_flight (resp : PyResponse) (ttl now : ℚ) (k : Nat)
    (htok : extractToken resp ≠ "") (hnow : 0 ≤ now) (httl : 60 < ttl) :
    runAsyncCallers ttl now (TransportResult.success resp) (k + 1)
      = (⟨some (extractToken resp), some (now + ttl)⟩, 1,
         List.replicate (k + 1) (Except.ok (extractToken resp))) := by
  have hv : is_token_valid ⟨some (extractToken resp), some (now + ttl)⟩ now = true :=
    valid_after_refresh _ ttl now htok hnow httl
  induction k with
  | zero =>
    have hempty : is_token_valid TokenProviderState.empty now = false := by
      simp [is_token_valid, pyFalsyStr, TokenProviderState.empty]
    simp [runAsyncCallers, get_token, refresh_token, hempty, htok]
  | succ j ih =>
    show (let r := runAsyncCallers ttl now (TransportResult.success resp) (j + 1)
          let g := get_token r.1 ttl now false (TransportResult.success resp)
          (g.2.1, r.2.1 + g.2.2, r.2.2 ++ [g.1]))
        = _
    rw [ih]
    simp [get_token, hv, List.replicate_succ']

/-- Witness for the async single-flight theorem: the spec's scenario of
`N = 20` concurrent callers on an Empty cache; the transport answers with
the quoted string response `"abc123"`. -/
theorem c1_async_single_flight_witness :
    runAsyncCallers 14400 0
        (TransportResult.success (PyResponse.pyStr "\"abc123\"")) (19 + 1)
      = (⟨some (extractToken (PyResponse.pyStr "\"abc123\"")), some ((0 : ℚ) + 14400)⟩, 1,
         List.replicate (19 + 1)
           (Except.ok (extractToken (PyResponse.pyStr "\"abc123\"")))) :=
  c1_async_single_flight (PyResponse.pyStr "\"abc123\"") 14400 0 19
    (by decide) (by norm_num) (by norm_num)

end MagentoUA
